import Mathlib

/-!
Shallow embedding of the polling-system service (Express + Mongoose).

Two collections live in a document store: `questions` and `options`.
A `Question` holds an ordered list of option ids (`options` field of the
Mongoose schema, a list of ObjectId references).  An `OptionDoc` (the
Mongoose `Option` model; renamed because `Option` is taken in Lean) holds
its text, a vote counter defaulting to 0, and an optional `link_to_vote`
string.  Document ids are modelled as `Nat`.

Store primitives mirror the Mongoose calls used by the controllers:
`findById`, `create`, `save`, `findByIdAndDelete`, `deleteMany` with an
`$in` filter, `findOne` with an `$elemMatch` membership filter, and
`updateOne` with `$pull`.  Controller functions are translated line by
line from `controller/question_controller.js` and
`controller/option_controller.js`; each returns a `Res` recording the
HTTP status sent, the message string of the JSON body, the option payload
when one is returned, the store after the call, and the number of store
operations performed (used to express "before any store access").
-/

structure OptionDoc where
  _id : Nat
  text : String
  votes : Nat
  link_to_vote : Option String
deriving DecidableEq, Repr

structure Question where
  _id : Nat
  title : String
  options : List Nat
deriving DecidableEq, Repr

structure Store where
  questions : List Question
  options : List OptionDoc
deriving DecidableEq, Repr

/-- `Question.findById(id)`. -/
def Question.findById (s : Store) (i : Nat) : Option Question :=
  s.questions.find? (fun q => q._id == i)

/-- `Option.findById(id)`. -/
def OptionDoc.findById (s : Store) (i : Nat) : Option OptionDoc :=
  s.options.find? (fun o => o._id == i)

/-- `Option.findByIdAndDelete(id)`: remove the document with this `_id`.
MongoDB ids are unique per collection, so removing every match equals
removing the one match. -/
def OptionDoc.findByIdAndDelete (s : Store) (i : Nat) : Store :=
  { s with options := s.options.filter (fun o => o._id != i) }

/-- `Option.deleteMany({ _id: { $in: ids } })`. -/
def OptionDoc.deleteMany (s : Store) (ids : List Nat) : Store :=
  { s with options := s.options.filter (fun o => !(ids.contains o._id)) }

/-- `Question.findByIdAndDelete(id)`. -/
def Question.findByIdAndDelete (s : Store) (i : Nat) : Store :=
  { s with questions := s.questions.filter (fun q => q._id != i) }

/-- `Question.findOne({ options: { $elemMatch: { $eq: oid } } })`:
first question whose option list contains `oid`. -/
def Question.findOneOwning (s : Store) (oid : Nat) : Option Question :=
  s.questions.find? (fun q => q.options.contains oid)

/-- `Question.updateOne({ _id: qid }, { $pull: { options: oid } })`:
remove every occurrence of `oid` from that question's list. -/
def Question.pullOption (s : Store) (qid oid : Nat) : Store :=
  { s with
    questions := s.questions.map (fun q =>
      if q._id == qid then
        { q with options := q.options.filter (fun x => x != oid) }
      else q) }

/-- `question.save()`: write the in-memory document back over the stored
document with the same `_id`. -/
def Question.save (s : Store) (q : Question) : Store :=
  { s with questions := s.questions.map (fun q0 => if q0._id == q._id then q else q0) }

/-- `option.save()`: write the in-memory document back over the stored
document with the same `_id`. -/
def OptionDoc.save (s : Store) (o : OptionDoc) : Store :=
  { s with options := s.options.map (fun o0 => if o0._id == o._id then o else o0) }

/-- `Option.create(doc)`: insert a new document. -/
def OptionDoc.createDoc (s : Store) (o : OptionDoc) : Store :=
  { s with options := s.options ++ [o] }

/-- `.populate("options")`: resolve each referenced id to its document;
references that resolve to nothing are dropped from the populated array. -/
def Question.populateOptions (s : Store) (q : Question) : List OptionDoc :=
  q.options.filterMap (fun i => OptionDoc.findById s i)

/-- Result of one controller call: HTTP status, JSON `message` field (empty
when the body is a bare option document), option payload when present, the
store afterwards, and how many store operations were performed. -/
structure Res where
  status : Nat
  msg : String
  ret : Option OptionDoc
  store : Store
  accesses : Nat
deriving DecidableEq, Repr

/-- `index.js`: the port the server listens on. -/
def PORT : Nat := 3000

/-- Host of the running server, as a client request would carry it. -/
def serverHost : String := "localhost:" ++ toString PORT

/-- The hardcoded vote link persisted by option creation
(`option.link_to_vote = "http://localhost:8000/options/" + id + "/add_vote"`). -/
def voteLink (i : Nat) : String :=
  "http://localhost:8000/options/" ++ toString i ++ "/add_vote"

/-- The vote link `getQuestion` rebuilds from the request:
`req.protocol + "://" + req.get("host") + "/options/" + id + "/add_vote"`. -/
def respLink (protocol host : String) (i : Nat) : String :=
  protocol ++ "://" ++ host ++ "/options/" ++ toString i ++ "/add_vote"

/-- JavaScript `String.prototype.trim()`: strip leading and trailing
whitespace (executable, so the kernel can evaluate it on literals). -/
def jsTrim (t : String) : String :=
  ⟨(((t.data.dropWhile Char.isWhitespace).reverse.dropWhile Char.isWhitespace).reverse)⟩

/-- `question_controller.create`: reject a missing or blank title with 400
before touching the store; otherwise `Question.create` with the trimmed
title.  `title = none` models an absent `req.body.title`; `newId` is the id
the store assigns. -/
def question_create (s : Store) (title : Option String) (newId : Nat) : Res :=
  match title with
  | none => { status := 400, msg := "Question title cannot be empty", ret := none, store := s, accesses := 0 }
  | some t =>
    if jsTrim t = "" then
      { status := 400, msg := "Question title cannot be empty", ret := none, store := s, accesses := 0 }
    else
      { status := 201, msg := "Question Created Successfully", ret := none,
        store := { s with questions := s.questions ++ [{ _id := newId, title := jsTrim t, options := [] }] },
        accesses := 1 }

/-- `question_controller.delete`: find the question and populate its
options; 404 when absent; 403 when any populated option has votes; else
bulk-delete the populated options when there are any, then delete the
question. -/
def question_delete (s : Store) (qid : Nat) : Res :=
  match Question.findById s qid with
  | none => { status := 404, msg := "Question not found", ret := none, store := s, accesses := 1 }
  | some question =>
    let opts := Question.populateOptions s question
    if opts.any (fun o => o.votes > 0) then
      { status := 403,
        msg := "Cannot delete this question as one or more of its options have votes",
        ret := none, store := s, accesses := 1 }
    else
      let s1 := if opts.length > 0 then OptionDoc.deleteMany s (opts.map (fun o => o._id)) else s
      let s2 := Question.findByIdAndDelete s1 qid
      { status := 200, msg := "Question and associated options deleted successfully",
        ret := none, store := s2,
        accesses := if opts.length > 0 then 3 else 2 }

/-- `question_controller.getQuestion` response: question title plus the
populated options, each with `link_to_vote` rebuilt from the request's
protocol and host and the option's id (overwriting the stored field). -/
structure GetQuestionRes where
  status : Nat
  title : Option String
  options : List OptionDoc
deriving DecidableEq, Repr

/-- `question_controller.getQuestion`. -/
def getQuestion (s : Store) (protocol host : String) (qid : Nat) : GetQuestionRes :=
  match Question.findById s qid with
  | none => { status := 404, title := none, options := [] }
  | some question =>
    { status := 200, title := some question.title,
      options := (Question.populateOptions s question).map (fun o =>
        { o with link_to_vote := some (respLink protocol host o._id) }) }

/-- `option_controller.create`: look the question up first; 404 when
absent.  `Option.create` enforces the schema's `required` text, so a
missing or empty text throws and the catch branch answers 500 with nothing
created.  Otherwise: create the option (votes default 0), set and save its
vote link built from its own id, push the id onto the question's list and
save the question, and return the option (bare JSON body, status 200). -/
def option_create (s : Store) (qid : Nat) (text : Option String) (newId : Nat) : Res :=
  match Question.findById s qid with
  | none =>
    { status := 404, msg := "Question with ID " ++ toString qid ++ " not found.",
      ret := none, store := s, accesses := 1 }
  | some question =>
    match text with
    | none => { status := 500, msg := "Error creating the option.", ret := none, store := s, accesses := 1 }
    | some t =>
      if t = "" then
        { status := 500, msg := "Error creating the option.", ret := none, store := s, accesses := 1 }
      else
        let o : OptionDoc := { _id := newId, text := t, votes := 0, link_to_vote := none }
        let s1 := OptionDoc.createDoc s o
        let o2 : OptionDoc := { o with link_to_vote := some (voteLink newId) }
        let s2 := OptionDoc.save s1 o2
        let s3 := Question.save s2 { question with options := question.options ++ [newId] }
        { status := 200, msg := "", ret := some o2, store := s3, accesses := 4 }

/-- The store after the first `k` write-steps of `option_create` on a
resolving question id and valid text: `k = 0` before the option is
created, `k = 1` after `Option.create`, `k = 2` after `option.save()` of
the vote link, `k ≥ 3` after `question.save()` appends the reference.
When the call rejects before writing, every prefix leaves the store as it
was. -/
def option_create_run (s : Store) (qid : Nat) (text : Option String) (newId k : Nat) : Store :=
  match Question.findById s qid with
  | none => s
  | some question =>
    match text with
    | none => s
    | some t =>
      if t = "" then s
      else if k = 0 then s
      else if k = 1 then
        OptionDoc.createDoc s { _id := newId, text := t, votes := 0, link_to_vote := none }
      else if k = 2 then
        OptionDoc.save
          (OptionDoc.createDoc s { _id := newId, text := t, votes := 0, link_to_vote := none })
          { _id := newId, text := t, votes := 0, link_to_vote := some (voteLink newId) }
      else
        Question.save
          (OptionDoc.save
            (OptionDoc.createDoc s { _id := newId, text := t, votes := 0, link_to_vote := none })
            { _id := newId, text := t, votes := 0, link_to_vote := some (voteLink newId) })
          { question with options := question.options ++ [newId] }

/-- `option_controller.delete`: 404 when the option is absent; 403 when it
has votes (nothing touched); with zero votes, reverse-look-up the owning
question, delete the option, and pull the id from the owner's list — or,
when no owner references it, delete the orphan anyway and report success. -/
def option_delete (s : Store) (oid : Nat) : Res :=
  match OptionDoc.findById s oid with
  | none =>
    { status := 404, msg := "Option with ID " ++ toString oid ++ " not found.",
      ret := none, store := s, accesses := 1 }
  | some o =>
    if o.votes < 1 then
      match Question.findOneOwning s oid with
      | some question =>
        let s1 := OptionDoc.findByIdAndDelete s oid
        let s2 := Question.pullOption s1 question._id oid
        { status := 200, msg := "Option deleted successfully", ret := some o, store := s2, accesses := 4 }
      | none =>
        let s1 := OptionDoc.findByIdAndDelete s oid
        { status := 200, msg := "Orphan option deleted successfully", ret := some o, store := s1, accesses := 3 }
    else
      { status := 403,
        msg := "Option with ID " ++ toString oid ++ " has votes and cannot be deleted.",
        ret := some o, store := s, accesses := 1 }

/-- `option_controller.addVote`: find the option, increment the counter in
application memory (`option.votes += 1`) and `save()` the whole document
back. -/
def addVote (s : Store) (oid : Nat) : Res :=
  match OptionDoc.findById s oid with
  | none =>
    { status := 404, msg := "Option with ID " ++ toString oid ++ " not found.",
      ret := none, store := s, accesses := 1 }
  | some o =>
    let o2 : OptionDoc := { o with votes := o.votes + 1 }
    { status := 200, msg := "Vote added successfully to option", ret := some o2,
      store := OptionDoc.save s o2, accesses := 2 }

/-- Observe one option's stored vote count. -/
def readVotes (s : Store) (oid : Nat) : Option Nat :=
  (OptionDoc.findById s oid).map (fun o => o.votes)

/-- One legal interleaving of two concurrent `addVote` calls on the same
option id: both calls run `Option.findById` before either call's
`option.save()` lands (read A, read B, write A, write B).  Each call's
body is exactly the source's read-increment-save sequence. -/
def addVote_interleaved (s : Store) (oid : Nat) : Store :=
  match OptionDoc.findById s oid, OptionDoc.findById s oid with
  | some oA, some oB =>
    let s1 := OptionDoc.save s { oA with votes := oA.votes + 1 }
    OptionDoc.save s1 { oB with votes := oB.votes + 1 }
  | _, _ => s

/-- No question's list references a nonexistent option. -/
def noDangling (s : Store) : Prop :=
  ∀ q ∈ s.questions, ∀ oid ∈ q.options, (OptionDoc.findById s oid).isSome

instance (s : Store) : Decidable (noDangling s) := by
  unfold noDangling; infer_instance

/-! ### Helper lemmas -/

theorem OptionDoc.findById_id {s : Store} {i : Nat} {o : OptionDoc}
    (h : OptionDoc.findById s i = some o) : o._id = i := by
  have := List.find?_some h
  simpa using this

theorem OptionDoc.findById_mem {s : Store} {i : Nat} {o : OptionDoc}
    (h : OptionDoc.findById s i = some o) : o ∈ s.options :=
  List.mem_of_find?_eq_some h

theorem Question.findById_id_eq {s : Store} {i : Nat} {q : Question}
    (h : Question.findById s i = some q) : q._id = i := by
  have := List.find?_some h
  simpa using this

theorem Question.findById_mem_self {s : Store} {i : Nat} {q : Question}
    (h : Question.findById s i = some q) : q ∈ s.questions :=
  List.mem_of_find?_eq_some h

/-- A sample store: one question with id 1 owning one option with id 10
carrying `v` votes. -/
def storeQA (v : Nat) : Store :=
  { questions := [{ _id := 1, title := "Q", options := [10] }],
    options := [{ _id := 10, text := "A", votes := v, link_to_vote := none }] }

/-! ### Claims -/

/-- C1: the claim states that CastVote increments the count by an atomic
read-modify-write at the store level, so that concurrent votes are never
lost.  The code instead runs `option.votes += 1; option.save()` — a read
into application memory followed by a write-back.  Evaluating the code's
read/save sequence at a concrete failing input: on a store whose option 0
has 0 votes, the interleaving read-A, read-B, write-A, write-B of two
concurrent CastVote calls leaves the count at 1, while two sequential
calls leave it at 2 — a lost update, contradicting "initial count plus N
regardless of interleaving". -/
theorem C1_lost_update_at_store :
    readVotes (addVote_interleaved (storeQA 0) 10) 10 = some 1 ∧
    readVotes ((addVote (addVote (storeQA 0) 10).store 10).store) 10 = some 2 := by
  constructor
  · decide
  · decide

/-- C2: deleting a question that owns at least one option with a positive
vote count answers 403 Forbidden and leaves the store untouched. -/
theorem C2_delete_question_forbidden (s : Store) (qid : Nat) (q : Question)
    (oid : Nat) (o : OptionDoc)
    (hq : Question.findById s qid = some q) (hmem : oid ∈ q.options)
    (ho : OptionDoc.findById s oid = some o) (hv : 0 < o.votes) :
    (question_delete s qid).status = 403 ∧ (question_delete s qid).store = s := by
  have hopt : o ∈ Question.populateOptions s q :=
    List.mem_filterMap.mpr ⟨oid, hmem, ho⟩
  have hany : (Question.populateOptions s q).any (fun o => o.votes > 0) = true :=
    List.any_eq_true.mpr ⟨o, hopt, by simpa using hv⟩
  simp [question_delete, hq, hany]

theorem C2_delete_question_forbidden_witness :
    Question.findById (storeQA 3) 1 = some { _id := 1, title := "Q", options := [10] } ∧
    (10 : Nat) ∈ [10] ∧
    OptionDoc.findById (storeQA 3) 10 = some { _id := 10, text := "A", votes := 3, link_to_vote := none } ∧
    (0 : Nat) < 3 ∧
    ((question_delete (storeQA 3) 1).status = 403 ∧ (question_delete (storeQA 3) 1).store = storeQA 3) :=
  ⟨by decide, by decide, by decide, by decide,
   C2_delete_question_forbidden (storeQA 3) 1 { _id := 1, title := "Q", options := [10] } 10
     { _id := 10, text := "A", votes := 3, link_to_vote := none }
     (by decide) (by decide) (by decide) (by decide)⟩

/-- C4: deleting an option whose vote count is positive answers 403
Forbidden and leaves the store untouched. -/
theorem C4_delete_option_forbidden (s : Store) (oid : Nat) (o : OptionDoc)
    (ho : OptionDoc.findById s oid = some o) (hv : 0 < o.votes) :
    (option_delete s oid).status = 403 ∧ (option_delete s oid).store = s := by
  have hlt : ¬ (o.votes < 1) := by omega
  simp [option_delete, ho, hlt]

theorem C4_delete_option_forbidden_witness :
    OptionDoc.findById (storeQA 2) 10 = some { _id := 10, text := "A", votes := 2, link_to_vote := none } ∧
    (0 : Nat) < 2 ∧
    ((option_delete (storeQA 2) 10).status = 403 ∧ (option_delete (storeQA 2) 10).store = storeQA 2) :=
  ⟨by decide, by decide,
   C4_delete_option_forbidden (storeQA 2) 10
     { _id := 10, text := "A", votes := 2, link_to_vote := none } (by decide) (by decide)⟩

/-- C6: deleting an orphan option (zero votes, referenced by no question's
list) still deletes the option and reports success (status 200 with the
informational orphan message); the questions are untouched. -/
theorem C6_delete_orphan_option (s : Store) (oid : Nat) (o : OptionDoc)
    (ho : OptionDoc.findById s oid = some o) (hv : o.votes = 0)
    (horph : ∀ q ∈ s.questions, oid ∉ q.options) :
    (option_delete s oid).status = 200 ∧
    (option_delete s oid).msg = "Orphan option deleted successfully" ∧
    OptionDoc.findById (option_delete s oid).store oid = none ∧
    (option_delete s oid).store.questions = s.questions := by
  have hown : Question.findOneOwning s oid = none := by
    refine List.find?_eq_none.mpr (fun q hq => ?_)
    have := horph q hq
    simpa [List.contains, List.elem_iff] using this
  have ho2 : List.find? (fun x => x._id == oid) s.options = some o := ho
  simp [option_delete, OptionDoc.findById, ho2, hown, hv, OptionDoc.findByIdAndDelete]

theorem C6_delete_orphan_option_witness :
    OptionDoc.findById ⟨[], [{ _id := 7, text := "A", votes := 0, link_to_vote := none }]⟩ 7 =
      some { _id := 7, text := "A", votes := 0, link_to_vote := none } ∧
    (0 : Nat) = 0 ∧
    (∀ q ∈ (⟨[], [{ _id := 7, text := "A", votes := 0, link_to_vote := none }]⟩ : Store).questions,
      (7 : Nat) ∉ q.options) ∧
    ((option_delete ⟨[], [{ _id := 7, text := "A", votes := 0, link_to_vote := none }]⟩ 7).status = 200 ∧
     (option_delete ⟨[], [{ _id := 7, text := "A", votes := 0, link_to_vote := none }]⟩ 7).msg =
       "Orphan option deleted successfully" ∧
     OptionDoc.findById (option_delete ⟨[], [{ _id := 7, text := "A", votes := 0, link_to_vote := none }]⟩ 7).store 7 = none ∧
     (option_delete ⟨[], [{ _id := 7, text := "A", votes := 0, link_to_vote := none }]⟩ 7).store.questions =
       (⟨[], [{ _id := 7, text := "A", votes := 0, link_to_vote := none }]⟩ : Store).questions) :=
  ⟨by decide, by decide, by decide,
   C6_delete_orphan_option ⟨[], [{ _id := 7, text := "A", votes := 0, link_to_vote := none }]⟩ 7
     { _id := 7, text := "A", votes := 0, link_to_vote := none } (by decide) (by decide) (by decide)⟩

/-- Deleting a question by id removes every stored question with that id. -/
theorem Question.findById_delete_self (s : Store) (qid : Nat) :
    Question.findById (Question.findByIdAndDelete s qid) qid = none := by
  refine List.find?_eq_none.mpr (fun x hx => ?_)
  have hx2 := (List.mem_filter.mp hx).2
  simpa using hx2

/-- `deleteMany` removes every option whose id is in the key set. -/
theorem OptionDoc.findById_deleteMany_mem (s : Store) (ids : List Nat) (oid : Nat)
    (h : oid ∈ ids) : OptionDoc.findById (OptionDoc.deleteMany s ids) oid = none := by
  refine List.find?_eq_none.mpr (fun x hx => ?_)
  have hpred := (List.mem_filter.mp hx).2
  intro hxid
  have hxid2 : x._id = oid := by simpa using hxid
  rw [hxid2] at hpred
  simp [List.contains, List.elem_iff, h] at hpred

/-- `deleteMany` creates no option: an id absent before is absent after. -/
theorem OptionDoc.findById_deleteMany_none (s : Store) (ids : List Nat) (oid : Nat)
    (h : OptionDoc.findById s oid = none) :
    OptionDoc.findById (OptionDoc.deleteMany s ids) oid = none := by
  refine List.find?_eq_none.mpr (fun x hx => ?_)
  exact List.find?_eq_none.mp h x (List.mem_filter.mp hx).1

/-- C3: deleting a question all of whose resolvable options carry zero
votes succeeds with 200, and afterwards neither the question nor any id
from its option list resolves in the store (a question with zero options
is deleted successfully as the skip-bulk-removal branch). -/
theorem C3_delete_question_success (s : Store) (qid : Nat) (q : Question)
    (hq : Question.findById s qid = some q)
    (hz : ∀ oid ∈ q.options, ∀ o, OptionDoc.findById s oid = some o → o.votes = 0) :
    (question_delete s qid).status = 200 ∧
    Question.findById (question_delete s qid).store qid = none ∧
    ∀ oid ∈ q.options, OptionDoc.findById (question_delete s qid).store oid = none := by
  have hany : (Question.populateOptions s q).any (fun o => o.votes > 0) = false := by
    refine List.any_eq_false.mpr (fun o hmem => ?_)
    obtain ⟨oid, hoid, hfind⟩ := List.mem_filterMap.mp hmem
    simp [hz oid hoid o hfind]
  refine ⟨?_, ?_, ?_⟩
  · simp [question_delete, hq, hany]
  · simp only [question_delete, hq, hany, Bool.false_eq_true, if_false]
    exact Question.findById_delete_self _ qid
  · intro oid hoid
    simp only [question_delete, hq, hany, Bool.false_eq_true, if_false]
    show OptionDoc.findById _ oid = none
    have hopts : ∀ s1 : Store,
        OptionDoc.findById (Question.findByIdAndDelete s1 qid) oid = OptionDoc.findById s1 oid :=
      fun s1 => rfl
    rw [hopts]
    cases hfind : OptionDoc.findById s oid with
    | none =>
      by_cases hlen : (Question.populateOptions s q).length > 0
      · simp only [hlen, if_true]
        exact OptionDoc.findById_deleteMany_none s _ oid hfind
      · simp only [hlen, if_false]
        exact hfind
    | some o =>
      have hmem : o ∈ Question.populateOptions s q := List.mem_filterMap.mpr ⟨oid, hoid, hfind⟩
      have hlen : (Question.populateOptions s q).length > 0 :=
        List.length_pos.mpr (List.ne_nil_of_mem hmem)
      simp only [hlen, if_true]
      refine OptionDoc.findById_deleteMany_mem s _ oid ?_
      exact List.mem_map.mpr ⟨o, hmem, OptionDoc.findById_id hfind⟩

theorem C3_delete_question_success_witness :
    Question.findById (storeQA 0) 1 = some { _id := 1, title := "Q", options := [10] } ∧
    (∀ oid ∈ [10], ∀ o : OptionDoc, OptionDoc.findById (storeQA 0) oid = some o → o.votes = 0) ∧
    ((question_delete (storeQA 0) 1).status = 200 ∧
     Question.findById (question_delete (storeQA 0) 1).store 1 = none ∧
     ∀ oid ∈ [10], OptionDoc.findById (question_delete (storeQA 0) 1).store oid = none) :=
  ⟨by decide, by decide,
   C3_delete_question_success (storeQA 0) 1 { _id := 1, title := "Q", options := [10] }
     (by decide) (by decide)⟩

/-- C5: deleting a zero-vote option referenced by some question succeeds
with 200; the option no longer resolves, and the owning question found by
the reverse lookup no longer lists the id anywhere (pull removes every
matching entry). -/
theorem C5_delete_option_success (s : Store) (oid : Nat) (o : OptionDoc)
    (ho : OptionDoc.findById s oid = some o) (hv : o.votes = 0)
    (hsome : ∃ q ∈ s.questions, oid ∈ q.options) :
    ∃ q0, Question.findOneOwning s oid = some q0 ∧
      (option_delete s oid).status = 200 ∧
      OptionDoc.findById (option_delete s oid).store oid = none ∧
      ∀ q1 ∈ (option_delete s oid).store.questions, q1._id = q0._id → oid ∉ q1.options := by
  obtain ⟨q, hqmem, hmem⟩ := hsome
  have hiss : (Question.findOneOwning s oid).isSome :=
    List.find?_isSome.mpr ⟨q, hqmem, by simp [List.contains, List.elem_iff, hmem]⟩
  obtain ⟨q0, hq0⟩ := Option.isSome_iff_exists.mp hiss
  have ho2 : List.find? (fun x => x._id == oid) s.options = some o := ho
  refine ⟨q0, hq0, ?_, ?_, ?_⟩
  · simp [option_delete, OptionDoc.findById, ho2, hv, hq0]
  · simp only [option_delete, OptionDoc.findById, ho2, hv, hq0, Nat.lt_irrefl]
    show List.find? _ (Question.pullOption (OptionDoc.findByIdAndDelete s oid) q0._id oid).options = none
    have hpull : ∀ s1 : Store, (Question.pullOption s1 q0._id oid).options = s1.options :=
      fun s1 => rfl
    rw [hpull]
    refine List.find?_eq_none.mpr (fun x hx => ?_)
    have hx2 := (List.mem_filter.mp hx).2
    simpa using hx2
  · intro q1 h1mem h1id hcontra
    simp only [option_delete, OptionDoc.findById, ho2, hv, hq0] at h1mem
    have h1mem2 : q1 ∈ (Question.pullOption (OptionDoc.findByIdAndDelete s oid) q0._id oid).questions := by
      simpa using h1mem
    obtain ⟨q2, hq2mem, hq2eq⟩ := List.mem_map.mp h1mem2
    by_cases hid : q2._id == q0._id
    · rw [if_pos hid] at hq2eq
      rw [← hq2eq] at hcontra
      have := (List.mem_filter.mp hcontra).2
      simp at this
    · rw [if_neg hid] at hq2eq
      rw [← hq2eq] at h1id
      simp [h1id] at hid

theorem C5_delete_option_success_witness :
    OptionDoc.findById (storeQA 0) 10 = some { _id := 10, text := "A", votes := 0, link_to_vote := none } ∧
    (0 : Nat) = 0 ∧
    (∃ q ∈ (storeQA 0).questions, (10 : Nat) ∈ q.options) ∧
    (∃ q0, Question.findOneOwning (storeQA 0) 10 = some q0 ∧
      (option_delete (storeQA 0) 10).status = 200 ∧
      OptionDoc.findById (option_delete (storeQA 0) 10).store 10 = none ∧
      ∀ q1 ∈ (option_delete (storeQA 0) 10).store.questions, q1._id = q0._id → (10 : Nat) ∉ q1.options) :=
  ⟨by decide, by decide, ⟨{ _id := 1, title := "Q", options := [10] }, by decide, by decide⟩,
   C5_delete_option_success (storeQA 0) 10 { _id := 10, text := "A", votes := 0, link_to_vote := none }
     (by decide) (by decide) ⟨{ _id := 1, title := "Q", options := [10] }, by decide, by decide⟩⟩

/-- Replacing, in a list, every element carrying a given id by a fixed
element with that same id: the first hit of a search for that id becomes
the replacement, provided some element carried the id. -/
theorem find?_map_replace (idf : OptionDoc → Nat) (l : List OptionDoc) (x : OptionDoc) (i : Nat)
    (hid : idf x = i) (h : (l.find? (fun a => idf a == i)).isSome) :
    ((l.map (fun a => if idf a == idf x then x else a)).find? (fun a => idf a == i)) = some x := by
  induction l with
  | nil => simp at h
  | cons a l ih =>
    by_cases ha : idf a = i
    · have hax : (idf a == idf x) = true := by simp [ha, hid]
      rw [List.map_cons, if_pos hax]
      exact List.find?_cons_of_pos _ (by simp [hid])
    · have h1 : (idf a == idf x) = false := by
        rw [hid]
        exact beq_eq_false_iff_ne.mpr ha
      rw [List.map_cons, if_neg (by simp [h1]), List.find?_cons_of_neg _ (by simp [ha])]
      refine ih ?_
      rwa [List.find?_cons_of_neg _ (by simp [ha])] at h

/-- Same replacement lemma for questions. -/
theorem find?_map_replace_q (idf : Question → Nat) (l : List Question) (x : Question) (i : Nat)
    (hid : idf x = i) (h : (l.find? (fun a => idf a == i)).isSome) :
    ((l.map (fun a => if idf a == idf x then x else a)).find? (fun a => idf a == i)) = some x := by
  induction l with
  | nil => simp at h
  | cons a l ih =>
    by_cases ha : idf a = i
    · have hax : (idf a == idf x) = true := by simp [ha, hid]
      rw [List.map_cons, if_pos hax]
      exact List.find?_cons_of_pos _ (by simp [hid])
    · have h1 : (idf a == idf x) = false := by
        rw [hid]
        exact beq_eq_false_iff_ne.mpr ha
      rw [List.map_cons, if_neg (by simp [h1]), List.find?_cons_of_neg _ (by simp [ha])]
      refine ih ?_
      rwa [List.find?_cons_of_neg _ (by simp [ha])] at h

/-- Inserting an option cannot break a question's references. -/
theorem noDangling_createDoc (s : Store) (o : OptionDoc) (h : noDangling s) :
    noDangling (OptionDoc.createDoc s o) := by
  intro q hq oid hoid
  obtain ⟨x, hx, hp⟩ := List.find?_isSome.mp (h q hq oid hoid)
  exact List.find?_isSome.mpr ⟨x, List.mem_append_left _ hx, hp⟩

/-- Saving an option document back (same id) cannot break a question's
references. -/
theorem noDangling_optionSave (s : Store) (o2 : OptionDoc) (h : noDangling s) :
    noDangling (OptionDoc.save s o2) := by
  intro q hq oid hoid
  obtain ⟨x, hx, hp⟩ := List.find?_isSome.mp (h q hq oid hoid)
  refine List.find?_isSome.mpr
    ⟨(fun o0 => if o0._id == o2._id then o2 else o0) x,
     List.mem_map_of_mem _ hx, ?_⟩
  by_cases hxx : (x._id == o2._id) = true
  · have hxeq : x._id = o2._id := by simpa using hxx
    simp only [hxx, if_true]
    rw [← hxeq]
    exact hp
  · simp only [hxx, if_false]
    exact hp

/-- Saving a question whose every listed id resolves cannot break any
question's references. -/
theorem noDangling_questionSave (s : Store) (q2 : Question) (h : noDangling s)
    (h2 : ∀ oid ∈ q2.options, (OptionDoc.findById s oid).isSome) :
    noDangling (Question.save s q2) := by
  intro q1 hq1 oid hoid
  have hsame : OptionDoc.findById (Question.save s q2) oid = OptionDoc.findById s oid := rfl
  rw [hsame]
  obtain ⟨q0, hq0mem, hq0eq⟩ := List.mem_map.mp hq1
  by_cases hid : (q0._id == q2._id) = true
  · rw [if_pos hid] at hq0eq
    exact h2 oid (hq0eq ▸ hoid)
  · rw [if_neg hid] at hq0eq
    exact h q0 hq0mem oid (hq0eq ▸ hoid)

/-- The full three-step run is the store `option_create` leaves behind. -/
theorem option_create_run_full (s : Store) (qid : Nat) (text : Option String) (newId : Nat) :
    option_create_run s qid text newId 3 = (option_create s qid text newId).store := by
  unfold option_create option_create_run
  cases Question.findById s qid with
  | none => rfl
  | some question =>
    cases text with
    | none => rfl
    | some t =>
      by_cases ht : t = ""
      · simp [ht]
      · simp [ht]

/-- C8: stopping `option_create` after any prefix of its store steps never
leaves a question referencing a nonexistent option: if no list dangled
before the call, none dangles after 0, 1, 2 or all 3 write steps (the
reference is appended only in the last step, after the option document
exists). -/
theorem C8_attach_prefix_no_dangling (s : Store) (qid : Nat) (text : Option String)
    (newId k : Nat) (h : noDangling s) :
    noDangling (option_create_run s qid text newId k) := by
  cases hq : Question.findById s qid with
  | none => simp only [option_create_run, hq]; exact h
  | some question =>
    cases text with
    | none => simp only [option_create_run, hq]; exact h
    | some t =>
      simp only [option_create_run, hq]
      by_cases ht : t = ""
      · rw [if_pos ht]; exact h
      rw [if_neg ht]
      by_cases h0 : k = 0
      · rw [if_pos h0]; exact h
      rw [if_neg h0]
      have hc : noDangling
          (OptionDoc.createDoc s { _id := newId, text := t, votes := 0, link_to_vote := none }) :=
        noDangling_createDoc s _ h
      by_cases h1 : k = 1
      · rw [if_pos h1]; exact hc
      rw [if_neg h1]
      have hs : noDangling
          (OptionDoc.save
            (OptionDoc.createDoc s { _id := newId, text := t, votes := 0, link_to_vote := none })
            { _id := newId, text := t, votes := 0, link_to_vote := some (voteLink newId) }) :=
        noDangling_optionSave _ _ hc
      by_cases h2 : k = 2
      · rw [if_pos h2]; exact hs
      rw [if_neg h2]
      refine noDangling_questionSave _ _ hs ?_
      intro oid hoid
      rcases List.mem_append.mp hoid with hold | hnew
      · have hqmem : question ∈ s.questions := Question.findById_mem_self hq
        exact hs question hqmem oid hold
      · have hoid2 : oid = newId := by simpa using hnew
        subst hoid2
        refine List.find?_isSome.mpr
          ⟨{ _id := oid, text := t, votes := 0, link_to_vote := some (voteLink oid) }, ?_, by simp⟩
        refine List.mem_map.mpr
          ⟨{ _id := oid, text := t, votes := 0, link_to_vote := none },
           List.mem_append_right _ (by simp), by simp⟩

theorem C8_attach_prefix_no_dangling_witness :
    noDangling (storeQA 0) ∧ noDangling (option_create_run (storeQA 0) 1 (some "B") 99 2) :=
  ⟨by decide, C8_attach_prefix_no_dangling (storeQA 0) 1 (some "B") 99 2 (by decide)⟩

/-- C7 counterexample: the claim promises that whenever the question id
resolves, AttachOption creates and returns a new option.  With question id
1 present but an empty option text, the schema's required-text validation
makes `Option.create` throw: the call answers 500, returns no option, and
leaves the store unchanged — no option is created even though the id
resolved. -/
theorem C7_attach_empty_text_counterexample :
    Question.findById (storeQA 0) 1 = some { _id := 1, title := "Q", options := [10] } ∧
    (option_create (storeQA 0) 1 (some "") 99).status = 500 ∧
    (option_create (storeQA 0) 1 (some "") 99).ret = none ∧
    (option_create (storeQA 0) 1 (some "") 99).store = storeQA 0 := by
  refine ⟨by decide, by decide, by decide, by decide⟩

/-- C7 (amended): if the question id does not resolve, AttachOption fails
404 and creates nothing; if it resolves and the text is present and
non-empty, a fresh option is created with vote count 0 and a persisted
vote link derived from its own new id, the id is appended to the
question's persisted list, and the created option is returned; if it
resolves but the text is missing or empty, the call fails 500 and creates
nothing. -/
theorem C7_attach_contract (s : Store) (qid newId : Nat) (text : Option String) :
    (Question.findById s qid = none →
      (option_create s qid text newId).status = 404 ∧
      (option_create s qid text newId).store = s) ∧
    (∀ q t, Question.findById s qid = some q → text = some t → t ≠ "" →
      OptionDoc.findById s newId = none →
      (option_create s qid text newId).status = 200 ∧
      (option_create s qid text newId).ret =
        some { _id := newId, text := t, votes := 0, link_to_vote := some (voteLink newId) } ∧
      OptionDoc.findById (option_create s qid text newId).store newId =
        some { _id := newId, text := t, votes := 0, link_to_vote := some (voteLink newId) } ∧
      Question.findById (option_create s qid text newId).store qid =
        some { q with options := q.options ++ [newId] }) ∧
    (∀ q, Question.findById s qid = some q → (text = none ∨ text = some "") →
      (option_create s qid text newId).status = 500 ∧
      (option_create s qid text newId).store = s ∧
      (option_create s qid text newId).ret = none) := by
  refine ⟨?_, ?_, ?_⟩
  · intro hq
    simp [option_create, hq]
  · intro q t hq htext ht hfresh
    subst htext
    have hres : option_create s qid (some t) newId =
        { status := 200, msg := "",
          ret := some { _id := newId, text := t, votes := 0, link_to_vote := some (voteLink newId) },
          store := Question.save
            (OptionDoc.save
              (OptionDoc.createDoc s { _id := newId, text := t, votes := 0, link_to_vote := none })
              { _id := newId, text := t, votes := 0, link_to_vote := some (voteLink newId) })
            { q with options := q.options ++ [newId] },
          accesses := 4 } := by
      simp [option_create, hq, ht]
    rw [hres]
    refine ⟨rfl, rfl, ?_, ?_⟩
    · show ((s.options ++ [({ _id := newId, text := t, votes := 0, link_to_vote := none } : OptionDoc)]).map
          (fun o0 : OptionDoc => if o0._id == newId then
            ({ _id := newId, text := t, votes := 0, link_to_vote := some (voteLink newId) } : OptionDoc)
          else o0)).find? (fun o : OptionDoc => o._id == newId) =
        some { _id := newId, text := t, votes := 0, link_to_vote := some (voteLink newId) }
      have hin : ((s.options ++ [({ _id := newId, text := t, votes := 0, link_to_vote := none } : OptionDoc)]).find?
          (fun a => a._id == newId)).isSome := by
        refine List.find?_isSome.mpr
          ⟨{ _id := newId, text := t, votes := 0, link_to_vote := none },
           List.mem_append_right _ (by simp), by simp⟩
      exact find?_map_replace OptionDoc._id _
        { _id := newId, text := t, votes := 0, link_to_vote := some (voteLink newId) } newId rfl hin
    · have hqid : q._id = qid := Question.findById_id_eq hq
      show (s.questions.map (fun q0 =>
          if q0._id == q._id then { q with options := q.options ++ [newId] } else q0)).find?
          (fun a => a._id == qid) = some { q with options := q.options ++ [newId] }
      have hin : ((s.questions).find? (fun a => a._id == qid)).isSome := by
        have h2 : Question.findById s qid = some q := hq
        unfold Question.findById at h2
        rw [h2]
        rfl
      exact find?_map_replace_q Question._id _ { q with options := q.options ++ [newId] } qid hqid hin
  · intro q hq htext
    rcases htext with h | h <;> subst h <;> simp [option_create, hq]

theorem C7_attach_contract_witness :
    Question.findById (storeQA 0) 1 = some { _id := 1, title := "Q", options := [10] } ∧
    some "B" = some "B" ∧ "B" ≠ "" ∧ OptionDoc.findById (storeQA 0) 99 = none ∧
    ((option_create (storeQA 0) 1 (some "B") 99).status = 200 ∧
     (option_create (storeQA 0) 1 (some "B") 99).ret =
       some { _id := 99, text := "B", votes := 0, link_to_vote := some (voteLink 99) } ∧
     OptionDoc.findById (option_create (storeQA 0) 1 (some "B") 99).store 99 =
       some { _id := 99, text := "B", votes := 0, link_to_vote := some (voteLink 99) } ∧
     Question.findById (option_create (storeQA 0) 1 (some "B") 99).store 1 =
       some { _id := 1, title := "Q", options := [10] ++ [99] }) :=
  ⟨by decide, rfl, by decide, by decide,
   (C7_attach_contract (storeQA 0) 1 99 (some "B")).2.1
     { _id := 1, title := "Q", options := [10] } "B" (by decide) rfl (by decide) (by decide)⟩

/-- C9 counterexample: the claim says every required-text input is
rejected with ValidationFailed (400) before any store access.  With
question id 1 present and an empty option text, AttachOption performs the
question lookup first (one store access already counted) and then fails
with the generic 500 from the catch branch, not a 400 validation
rejection. -/
theorem C9_attach_validation_counterexample :
    (option_create (storeQA 0) 1 (some "") 99).accesses = 1 ∧
    (option_create (storeQA 0) 1 (some "") 99).status = 500 ∧
    ¬ (option_create (storeQA 0) 1 (some "") 99).status = 400 := by
  refine ⟨by decide, by decide, by decide⟩

/-- C9 (amended): CreateQuestion rejects a missing or blank title with 400
before any store access (zero store operations, store unchanged);
AttachOption has no pre-store text validation — it performs the question
lookup first, and a missing or empty text then fails at option creation
with the generic 500, the store left unchanged. -/
theorem C9_text_validation (s : Store) (newId qid : Nat) (t : String) (q : Question) :
    ((question_create s none newId).status = 400 ∧
     (question_create s none newId).accesses = 0 ∧
     (question_create s none newId).store = s) ∧
    (jsTrim t = "" →
      (question_create s (some t) newId).status = 400 ∧
      (question_create s (some t) newId).accesses = 0 ∧
      (question_create s (some t) newId).store = s) ∧
    (Question.findById s qid = some q →
      (option_create s qid (some "") newId).status = 500 ∧
      (option_create s qid (some "") newId).accesses = 1 ∧
      (option_create s qid (some "") newId).store = s ∧
      (option_create s qid none newId).status = 500 ∧
      (option_create s qid none newId).accesses = 1 ∧
      (option_create s qid none newId).store = s) := by
  refine ⟨⟨rfl, rfl, rfl⟩, ?_, ?_⟩
  · intro ht
    refine ⟨?_, ?_, ?_⟩ <;> simp [question_create, ht]
  · intro hq
    refine ⟨?_, ?_, ?_, ?_, ?_, ?_⟩ <;> simp [option_create, hq]

theorem C9_text_validation_witness :
    (jsTrim "  " = "") ∧
    Question.findById (storeQA 0) 1 = some { _id := 1, title := "Q", options := [10] } ∧
    (((question_create (storeQA 0) none 50).status = 400 ∧
      (question_create (storeQA 0) none 50).accesses = 0 ∧
      (question_create (storeQA 0) none 50).store = storeQA 0) ∧
     (jsTrim "  " = "" →
       (question_create (storeQA 0) (some "  ") 50).status = 400 ∧
       (question_create (storeQA 0) (some "  ") 50).accesses = 0 ∧
       (question_create (storeQA 0) (some "  ") 50).store = storeQA 0) ∧
     (Question.findById (storeQA 0) 1 = some { _id := 1, title := "Q", options := [10] } →
       (option_create (storeQA 0) 1 (some "") 50).status = 500 ∧
       (option_create (storeQA 0) 1 (some "") 50).accesses = 1 ∧
       (option_create (storeQA 0) 1 (some "") 50).store = storeQA 0 ∧
       (option_create (storeQA 0) 1 none 50).status = 500 ∧
       (option_create (storeQA 0) 1 none 50).accesses = 1 ∧
       (option_create (storeQA 0) 1 none 50).store = storeQA 0)) :=
  ⟨by decide, by decide,
   C9_text_validation (storeQA 0) 50 1 "  " { _id := 1, title := "Q", options := [10] }⟩

/-- The link `getQuestion` computes for a request carrying the server's
own host differs from the link persisted at creation: the stored one
hardcodes port 8000 while the server listens on `PORT = 3000`. -/
theorem respLink_ne_voteLink (i : Nat) : respLink "http" serverHost i ≠ voteLink i := by
  intro h
  unfold respLink voteLink at h
  have hP : "http" ++ "://" ++ serverHost ++ "/options/" = "http://localhost:3000/options/" := by
    decide
  rw [hP] at h
  have hd := congrArg String.data h
  simp only [String.data_append] at hd
  rw [List.append_assoc, List.append_assoc] at hd
  have hlen : ("http://localhost:3000/options/").data.length =
      ("http://localhost:8000/options/").data.length := by decide
  have hpre := (List.append_inj hd hlen).1
  exact absurd hpre (by decide)

/-- C10: for an existing question, `getQuestion` answers 200 and returns
each resolvable owned option with `link_to_vote` rebuilt from the incoming
request's protocol and host plus the option's id, whatever the persisted
field held; and for a request carrying the server's own host
(`localhost:3000`, from `PORT = 3000`), the rebuilt link always differs
from the link `option_create` persisted (which hardcodes
`http://localhost:8000`). -/
theorem C10_get_question_links (s : Store) (protocol host : String) (qid : Nat)
    (q : Question) (oid : Nat) (o : OptionDoc)
    (hq : Question.findById s qid = some q) (hmem : oid ∈ q.options)
    (ho : OptionDoc.findById s oid = some o) :
    (getQuestion s protocol host qid).status = 200 ∧
    { o with link_to_vote := some (respLink protocol host o._id) } ∈
      (getQuestion s protocol host qid).options ∧
    respLink "http" serverHost o._id ≠ voteLink o._id := by
  refine ⟨by simp [getQuestion, hq], ?_, respLink_ne_voteLink o._id⟩
  simp only [getQuestion, hq]
  exact List.mem_map.mpr ⟨o, List.mem_filterMap.mpr ⟨oid, hmem, ho⟩, rfl⟩

theorem C10_get_question_links_witness :
    Question.findById (storeQA 0) 1 = some { _id := 1, title := "Q", options := [10] } ∧
    (10 : Nat) ∈ [10] ∧
    OptionDoc.findById (storeQA 0) 10 = some { _id := 10, text := "A", votes := 0, link_to_vote := none } ∧
    ((getQuestion (storeQA 0) "http" serverHost 1).status = 200 ∧
     { _id := 10, text := "A", votes := 0, link_to_vote := some (respLink "http" serverHost 10) } ∈
       (getQuestion (storeQA 0) "http" serverHost 1).options ∧
     respLink "http" serverHost 10 ≠ voteLink 10) :=
  ⟨by decide, by decide, by decide,
   C10_get_question_links (storeQA 0) "http" serverHost 1
     { _id := 1, title := "Q", options := [10] } 10
     { _id := 10, text := "A", votes := 0, link_to_vote := none }
     (by decide) (by decide) (by decide)⟩
